import Mathlib

/-!
Shallow embedding of the device-gpiod driver (Go) for specification checking.

The embedding covers:
* `driver/trafficLight.go` — the indicator (traffic light) controller:
  the `lights` record, the package-level nil pointers, and the operations
  `HandleLight`, `Up`, `Down`, `SetFlashOn`, `SetFlashOff`, `Flashing`.
* `driver/simpledriver.go` — the duration resolution in the driver setup,
  the pump hold loop, the reverse and clean sub-pipelines, and the
  readiness loop of `handleStartGpio`.
* the connectivity prober and watchdog reporter (`connected`,
  `pushConnectionStatus`, `ConnectionCheck`).

Durations are modelled as `Int` nanosecond counts (Go `time.Duration` is an
`int64` nanosecond count).  Stateful Go code is modelled as explicit state
passing; calls whose outcome is decided outside the translated code (line
actuations, HTTP probes) take that outcome as an explicit boolean/oracle
parameter.  Nil pointers are modelled with `Option`: `none` is a nil
pointer, and an operation that would dereference nil returns `none`.
-/

namespace DeviceGpiod

/-! ## Indicator (traffic light) state — `driver/trafficLight.go`

Go source:
```
type lights struct {
    flashing bool
    status   bool
    color    rune
    gpio     gpio.GPIO
}
var ( green, yellow, red *lights )
```
The `gpio` field is represented by the line number the light is bound to;
the result of an underlying `gpio.Up()` / `gpio.Down()` actuation does not
affect any of the flag updates in the source (the flags are assigned
unconditionally after the actuation call), so the actuation outcome does
not appear in the state-transition functions. -/

structure Light where
  flashing : Bool
  status : Bool
  color : Char
  line : Int
deriving DecidableEq, Repr

/-- Values of the three lights, for the model in which all three package
pointers are allocated (the field-update logic of `Up`/`Down`/`SetFlashOn`/
`SetFlashOff` operates on this). -/
structure TLState where
  green : Light
  yellow : Light
  red : Light
deriving DecidableEq, Repr

/-- Go `func Up(color rune) error`: switch on the rune; for a recognised
color, set that color's `status` to true and the other two to false
(unconditionally, whatever the line actuation returned); the default branch
only logs. -/
def upState (color : Char) (s : TLState) : TLState :=
  if color = 'G' then
    { s with green := { s.green with status := true },
             yellow := { s.yellow with status := false },
             red := { s.red with status := false } }
  else if color = 'Y' then
    { s with yellow := { s.yellow with status := true },
             red := { s.red with status := false },
             green := { s.green with status := false } }
  else if color = 'R' then
    { s with red := { s.red with status := true },
             green := { s.green with status := false },
             yellow := { s.yellow with status := false } }
  else s

/-- Go `func Down(color rune) error`: for a recognised color, set that
color's `status` to false; the other two lights are untouched; the default
branch only logs. -/
def downState (color : Char) (s : TLState) : TLState :=
  if color = 'G' then
    { s with green := { s.green with status := false } }
  else if color = 'Y' then
    { s with yellow := { s.yellow with status := false } }
  else if color = 'R' then
    { s with red := { s.red with status := false } }
  else s

/-- Go `func SetFlashOn(color rune)`: for a recognised color, set that
color's `flashing` flag to true and the other two colors' `flashing` flags
to false; no `status` field is touched. -/
def setFlashOn (color : Char) (s : TLState) : TLState :=
  if color = 'G' then
    { s with green := { s.green with flashing := true },
             yellow := { s.yellow with flashing := false },
             red := { s.red with flashing := false } }
  else if color = 'Y' then
    { s with yellow := { s.yellow with flashing := true },
             green := { s.green with flashing := false },
             red := { s.red with flashing := false } }
  else if color = 'R' then
    { s with red := { s.red with flashing := true },
             green := { s.green with flashing := false },
             yellow := { s.yellow with flashing := false } }
  else s

/-- Go `func SetFlashOff(color rune)`: for a recognised color, clear that
color's `flashing` flag; other lights untouched. -/
def setFlashOff (color : Char) (s : TLState) : TLState :=
  if color = 'G' then
    { s with green := { s.green with flashing := false } }
  else if color = 'Y' then
    { s with yellow := { s.yellow with flashing := false } }
  else if color = 'R' then
    { s with red := { s.red with flashing := false } }
  else s

/-- The at-most-one-solid predicate over the three `status` flags: no two
of green, yellow, red are solid-on at the same time. -/
def atMostOneSolid (s : TLState) : Bool :=
  !(s.green.status && s.yellow.status)
  && !(s.green.status && s.red.status)
  && !(s.yellow.status && s.red.status)

/-! ## Pointer-level model of the indicator package — nil dereferences

The package declares `var ( green, yellow, red *lights )` and no code path
in the repository ever allocates any of them.  `Option Light` models each
pointer (`none` = nil); an operation returns `none` exactly when the Go
code would dereference a nil pointer (read or write through it). -/

structure TLPointers where
  green : Option Light
  yellow : Option Light
  red : Option Light
deriving DecidableEq, Repr

/-- The package-level state at program start: all three light pointers are
nil, and nothing in the repository assigns to them. -/
def nilLights : TLPointers := ⟨none, none, none⟩

/-- Go `func HandleLight(g gpio.GPIO)`: switch on `g.Line`; cases 5/6/7
write `color` and `gpio` through the corresponding pointer (dereferencing
it); the default branch only logs. -/
def handleLightOpt (gLine : Int) (p : TLPointers) : Option TLPointers :=
  if gLine = 5 then
    match p.green with
    | none => none
    | some l => some { p with green := some { l with color := 'G', line := gLine } }
  else if gLine = 6 then
    match p.yellow with
    | none => none
    | some l => some { p with yellow := some { l with color := 'Y', line := gLine } }
  else if gLine = 7 then
    match p.red with
    | none => none
    | some l => some { p with red := some { l with color := 'R', line := gLine } }
  else some p

/-- Pointer-level `Up`: a recognised color reads `color.gpio` and writes
the `status` fields of all three lights, so all three pointers are
dereferenced; the default branch only logs. -/
def upOpt (color : Char) (p : TLPointers) : Option TLPointers :=
  if color = 'G' then
    match p.green, p.yellow, p.red with
    | some g, some y, some r =>
        some { green := some { g with status := true },
               yellow := some { y with status := false },
               red := some { r with status := false } }
    | _, _, _ => none
  else if color = 'Y' then
    match p.green, p.yellow, p.red with
    | some g, some y, some r =>
        some { green := some { g with status := false },
               yellow := some { y with status := true },
               red := some { r with status := false } }
    | _, _, _ => none
  else if color = 'R' then
    match p.green, p.yellow, p.red with
    | some g, some y, some r =>
        some { green := some { g with status := false },
               yellow := some { y with status := false },
               red := some { r with status := true } }
    | _, _, _ => none
  else some p

/-- Pointer-level `Down`: a recognised color dereferences only that
color's pointer (gpio read plus `status` write); default branch only logs. -/
def downOpt (color : Char) (p : TLPointers) : Option TLPointers :=
  if color = 'G' then
    match p.green with
    | none => none
    | some g => some { p with green := some { g with status := false } }
  else if color = 'Y' then
    match p.yellow with
    | none => none
    | some y => some { p with yellow := some { y with status := false } }
  else if color = 'R' then
    match p.red with
    | none => none
    | some r => some { p with red := some { r with status := false } }
  else some p

/-- Pointer-level `SetFlashOn`: a recognised color writes the `flashing`
field of all three lights, dereferencing all three pointers; default
branch only logs. -/
def setFlashOnOpt (color : Char) (p : TLPointers) : Option TLPointers :=
  if color = 'G' then
    match p.green, p.yellow, p.red with
    | some g, some y, some r =>
        some { green := some { g with flashing := true },
               yellow := some { y with flashing := false },
               red := some { r with flashing := false } }
    | _, _, _ => none
  else if color = 'Y' then
    match p.green, p.yellow, p.red with
    | some g, some y, some r =>
        some { green := some { g with flashing := false },
               yellow := some { y with flashing := true },
               red := some { r with flashing := false } }
    | _, _, _ => none
  else if color = 'R' then
    match p.green, p.yellow, p.red with
    | some g, some y, some r =>
        some { green := some { g with flashing := false },
               yellow := some { y with flashing := false },
               red := some { r with flashing := true } }
    | _, _, _ => none
  else some p

/-- Pointer-level `SetFlashOff`: a recognised color writes that color's
`flashing` field only; default branch only logs. -/
def setFlashOffOpt (color : Char) (p : TLPointers) : Option TLPointers :=
  if color = 'G' then
    match p.green with
    | none => none
    | some g => some { p with green := some { g with flashing := false } }
  else if color = 'Y' then
    match p.yellow with
    | none => none
    | some y => some { p with yellow := some { y with flashing := false } }
  else if color = 'R' then
    match p.red with
    | none => none
    | some r => some { p with red := some { r with flashing := false } }
  else some p

/-- Go `func Flashing(color rune) error`, entry behaviour: an unrecognised
color returns an error before touching any pointer; a recognised color
first reads `flashingLight.flashing` as the loop guard, dereferencing that
color's pointer.  Returns `none` on a nil dereference at the guard, and
`some guard` otherwise (`guard` = the flag value read; `false` for the
unknown-color early return, where the loop is never entered).  The loop
body itself is modelled by `flashingLoop` below. -/
def flashingGuardOpt (color : Char) (p : TLPointers) : Option Bool :=
  if color = 'G' then p.green.map (fun l => l.flashing)
  else if color = 'Y' then p.yellow.map (fun l => l.flashing)
  else if color = 'R' then p.red.map (fun l => l.flashing)
  else some false

/-! ## The flash loop body — `Flashing` in `driver/trafficLight.go`

```
for flashingLight.flashing {
    err = Up(color)
    if err != nil { ... return err }
    time.Sleep(3 * time.Second)
    err = Down(color)
    if err != nil { ... return err }
}
```
One oracle entry per pass over the loop head: the flag value observed at
the guard, and whether the `Up` / `Down` actuation of that pass fails.
The produced value is the trace of externally visible events of the loop:
line actuations and sleeps, in order.  Note the loop body contains exactly
one `time.Sleep` — between `Up` and `Down` — and none after `Down`. -/

inductive FlashEvent where
  | lineUp
  | wait3s
  | lineDown
deriving DecidableEq, Repr

/-- Event trace of the `Flashing` loop, driven by one oracle entry
`(flag, upErr, downErr)` per arrival at the loop guard.  A `false` flag
exits the loop; a failed actuation returns from the function. -/
def flashingLoop : List (Bool × Bool × Bool) → List FlashEvent
  | [] => []
  | (flag, upErr, downErr) :: rest =>
      if flag then
        if upErr then [FlashEvent.lineUp]
        else if downErr then [FlashEvent.lineUp, FlashEvent.wait3s, FlashEvent.lineDown]
        else [FlashEvent.lineUp, FlashEvent.wait3s, FlashEvent.lineDown] ++ flashingLoop rest
      else []

/-! ## Duration resolution in the driver setup — `Initialize` in
`driver/simpledriver.go`

Each environment variable is parsed with `time.ParseDuration`; the parse
result is modelled as `Option Int` (`none` = parse error, `some d` = the
parsed duration, an `int64` nanosecond count).  `NS_PER_SEC` converts
between nanoseconds and seconds.  `int64(pump.Seconds())` truncates the
float `d / 1e9` toward zero, modelled by `Int.div` (exact for every input
whose second count is exactly float-representable, in particular for all
concrete inputs used in the theorems below). -/

def NS_PER_SEC : Int := 1000000000

def MIN_PUMP : Int := 5

def MIN_COMMAND_GAP : Int := 10 * 60 * NS_PER_SEC

def MIN_CLEAN_TIMER : Int := 5 * 60 * NS_PER_SEC

def MIN_REVERSE_TIMER : Int := 5 * 60 * NS_PER_SEC

def MIN_GRAVITY_TIMER : Int := 5 * 60 * NS_PER_SEC

/-- Resolution of `*pumpTimer` from `PUMP_TIMEOUT`.  On parse error the
source assigns `int64(time.Duration(5) * time.Minute)` — a NANOSECOND
count (3*10^11).  On success it assigns `int64(pump.Seconds())` — a SECOND
count — clamped below by `MIN_PUMP*int64(time.Minute.Seconds())` = 300.
The sequencer (`handleStartGpio`) compares this value against elapsed Unix
SECONDS. -/
def initPumpTimer (parsed : Option Int) : Int :=
  match parsed with
  | none => 5 * 60 * NS_PER_SEC
  | some d =>
      let secs := Int.tdiv d NS_PER_SEC
      if secs < MIN_PUMP * 60 then MIN_PUMP * 60 else secs

/-- Resolution of `*commandGap` from `COMMAND_GAP`: default 60 minutes on
parse error, then clamped below by `MIN_COMMAND_GAP` (nanoseconds
throughout). -/
def initCommandGap (parsed : Option Int) : Int :=
  let g : Int :=
    match parsed with
    | none => 60 * 60 * NS_PER_SEC
    | some d => d
  if g < MIN_COMMAND_GAP then MIN_COMMAND_GAP else g

/-- Resolution of `*cleanTimer` from `CLEAN_TIMEOUT`: default 5 minutes on
parse error, then clamped below by `MIN_CLEAN_TIMER`. -/
def initCleanTimer (parsed : Option Int) : Int :=
  let c : Int :=
    match parsed with
    | none => 5 * 60 * NS_PER_SEC
    | some d => d
  if c < MIN_CLEAN_TIMER then MIN_CLEAN_TIMER else c

/-- Resolution of `*reverseTimer` from `REVERSE_TIMEOUT`: default 5
minutes on parse error, then clamped below by `MIN_REVERSE_TIMER`. -/
def initReverseTimer (parsed : Option Int) : Int :=
  let r : Int :=
    match parsed with
    | none => 5 * 60 * NS_PER_SEC
    | some d => d
  if r < MIN_REVERSE_TIMER then MIN_REVERSE_TIMER else r

/-- Resolution of `*gravityTimer` from `GRAVITY_TIMEOUT`: default 5
minutes on parse error, then clamped below by `MIN_GRAVITY_TIMER`. -/
def initGravityTimer (parsed : Option Int) : Int :=
  let g : Int :=
    match parsed with
    | none => 5 * 60 * NS_PER_SEC
    | some d => d
  if g < MIN_GRAVITY_TIMER then MIN_GRAVITY_TIMER else g

/-- The `Config` value built at the end of the duration section (the
boolean fields are omitted; they do not carry durations).  Every field is
a `time.Duration`, i.e. a nanosecond count; in particular `PumpTimer` is
`time.Duration(*pumpTimer)`, which reinterprets the resolved `*pumpTimer`
count as nanoseconds. -/
structure GpioConfig where
  pumpTimer : Int
  cleanTimer : Int
  reverseTimer : Int
  gravityTimer : Int
  commandGap : Int
deriving DecidableEq, Repr

/-- Assembly of `gpioConfig` from the five parse results, as in the
duration section of the driver setup. -/
def buildGpioConfig (pump gap clean rev grav : Option Int) : GpioConfig :=
  { pumpTimer := initPumpTimer pump
    cleanTimer := initCleanTimer clean
    reverseTimer := initReverseTimer rev
    gravityTimer := initGravityTimer grav
    commandGap := initCommandGap gap }

/-! ## The pump loop body — `handleStartGpio` in `driver/simpledriver.go`

One iteration of the main `for` loop chooses among three branches:
```
if !gpio.State            { attempt pump on ... }
else if now - startTs >= pumpTimer { attempt pump off ... }
else {
    log.Printf("Pump will run for %d s...", pumpTimer-(now-startTs))
    time.Sleep(time.Duration(pumpTimer) * time.Second)
}
```
Times are Unix seconds (`time.Now().Unix()`), `pumpTimerSec` is the
resolved `*pumpTimer` value. -/

inductive PumpAction where
  | turnOnAttempt
  | turnOffAttempt
  | hold (loggedRemainingSec : Int) (sleepSec : Int)
deriving DecidableEq, Repr

/-- Branch selection of one pump-loop iteration.  In the hold branch the
logged remaining time is `pumpTimer - (now - startTs)` while the sleep is
`time.Duration(pumpTimer) * time.Second`, i.e. `pumpTimerSec` whole
seconds. -/
def pumpStep (state : Bool) (now startTs pumpTimerSec : Int) : PumpAction :=
  if !state then PumpAction.turnOnAttempt
  else if now - startTs ≥ pumpTimerSec then PumpAction.turnOffAttempt
  else PumpAction.hold (pumpTimerSec - (now - startTs)) pumpTimerSec

/-! ## Reverse and clean sub-pipelines — `handleReverseGpio`,
`handleCleanGpio`

Each line actuation's outcome is an oracle boolean (`true` = the call
returned an error).  The produced value is the ordered list of actuation
attempts performed by the call, including the `Up('R')` alarm raised on an
abort.  The translation keeps the source's `err` dataflow exactly: in both
functions the `Down()` call on the pump line discards its result
(`clean.Down()` / `reverse.Down()` are statements, not assignments to
`err`), and the `if err != nil` that follows reads the PREVIOUS value of
`err`. -/

inductive CleanStep where
  | svUp
  | ovUp
  | cUp
  | yUp
  | cDown
  | yDown
  | ovDown
  | svDown
  | redUp
deriving DecidableEq, Repr

/-- Trace of `handleCleanGpio`, one oracle boolean per fallible call, in
source order: switching valve up, open valve up, clean pump up, `Up('Y')`,
clean pump down (result discarded), `Down('Y')` (logged only), open valve
down, switching valve down.  After `clean.Down()` the code tests the stale
`err` from `Up('Y')`, so `fCDown` never aborts and `fYUp` aborts there. -/
def handleCleanTrace (fSvUp fOvUp fCUp fYUp fCDown fYDown fOvDown fSvDown : Bool) :
    List CleanStep :=
  if fSvUp then [CleanStep.svUp, CleanStep.redUp]
  else if fOvUp then [CleanStep.svUp, CleanStep.ovUp, CleanStep.redUp]
  else if fCUp then [CleanStep.svUp, CleanStep.ovUp, CleanStep.cUp, CleanStep.redUp]
  else if fYUp then
    [CleanStep.svUp, CleanStep.ovUp, CleanStep.cUp, CleanStep.yUp, CleanStep.cDown,
     CleanStep.redUp]
  else if fOvDown then
    [CleanStep.svUp, CleanStep.ovUp, CleanStep.cUp, CleanStep.yUp, CleanStep.cDown,
     CleanStep.yDown, CleanStep.ovDown, CleanStep.redUp]
  else if fSvDown then
    [CleanStep.svUp, CleanStep.ovUp, CleanStep.cUp, CleanStep.yUp, CleanStep.cDown,
     CleanStep.yDown, CleanStep.ovDown, CleanStep.svDown, CleanStep.redUp]
  else
    [CleanStep.svUp, CleanStep.ovUp, CleanStep.cUp, CleanStep.yUp, CleanStep.cDown,
     CleanStep.yDown, CleanStep.ovDown, CleanStep.svDown]

inductive RevStep where
  | rUp
  | flashOnG
  | rDown
  | flashOffG
  | cleanRun
  | redUp
deriving DecidableEq, Repr

/-- Trace of `handleReverseGpio`.  `fRDown` is the outcome of
`reverse.Down()`; the source discards it (statement, not assigned to
`err`) and then tests the stale `err` from `reverse.Up()`, which is nil on
this path, so `fRDown` never aborts and the function always continues to
`SetFlashOff('G')` and, when clean is enabled, to the clean sub-pipeline. -/
def handleReverseTrace (fRUp fRDown enClean : Bool) : List RevStep :=
  if fRUp then [RevStep.rUp, RevStep.redUp]
  else
    let base := [RevStep.rUp, RevStep.flashOnG, RevStep.rDown, RevStep.flashOffG]
    if enClean then base ++ [RevStep.cleanRun] else base

/-! ## Connectivity prober and watchdog reporter

`connected()` (prober):
```
for {
    _, err := http.Get("http://clients3.google.com/generate_204")
    if err != nil { pushConnectionStatus(false) }
    pushConnectionStatus(true)
    time.Sleep(30 * time.Second)
}
```
`ConnectionCheck()` (reporter): consumes the channel with the debounce
counter `checkLoop`. -/

/-- Channel pushes performed by ONE iteration of the prober loop, in
order (`false` = Disconnected, `true` = Connected).  The `push true` is
unconditional — it is not in an `else` branch. -/
def connectedIterPushes (probeFails : Bool) : List Bool :=
  (if probeFails then [false] else []) ++ [true]

inductive WCall where
  | flashOnR
  | flashOffR
deriving DecidableEq, Repr

/-- One reporter iteration: consume `connAck`; on a Disconnected value in
the not-flashing state (`checkLoop == 0`) set `checkLoop` to 1 and call
`SetFlashOn('R')` (spawning the red flash task); on any Connected value
reset `checkLoop` and call `SetFlashOff('R')`; otherwise do nothing. -/
def connStep (checkLoop : Nat) (connAck : Bool) : Nat × List WCall :=
  if !connAck && checkLoop == 0 then (1, [WCall.flashOnR])
  else if connAck then (0, [WCall.flashOffR])
  else (checkLoop, [])

/-- Reporter run over a finite list of consumed channel values, threading
`checkLoop` and accumulating the indicator calls in order. -/
def connRun (checkLoop : Nat) : List Bool → Nat × List WCall
  | [] => (checkLoop, [])
  | a :: rest =>
      let step := connStep checkLoop a
      let tail := connRun step.1 rest
      (tail.1, step.2 ++ tail.2)

/-! ## Readiness loop — entry of `handleStartGpio`

```
attempt := 0
for !startPipeline {
    _, errGpio := ds.GetDeviceByName(ds.Name())
    if errGpio != nil {
        attempt++
        if attempt > MAX_RETRY { os.Exit(0) }
        time.Sleep(5 * time.Second); continue
    }
    response, errModbus := http.Get(...)
    if errModbus != nil { time.Sleep(5 * time.Second); continue }
    body, err := ioutil.ReadAll(response.Body)
    if err != nil {
        if response.StatusCode == 200 { startPipeline = true }
        continue
    }
    startPipeline = true
}
```
One oracle outcome per iteration describes which of the external calls
failed. -/

def MAX_RETRY : Nat := 5

inductive ReadyOutcome where
  | deviceFail
  | modbusConnFail
  | bodyReadFail (statusCode : Int)
  | bodyReadOk
deriving DecidableEq, Repr

inductive ReadyStepResult where
  | exitProcess (code : Nat)
  | retry (attempt : Nat) (sleepSecs : Nat)
  | started (attempt : Nat)
deriving DecidableEq, Repr

/-- One readiness-loop iteration: only a device-registry failure
increments `attempt` (exiting the process with code 0 once it exceeds
`MAX_RETRY`); an endpoint connection failure retries after 5 s without
touching `attempt`; a body-read failure accepts status 200 and otherwise
retries immediately (no sleep); a readable body starts the pipeline. -/
def readyStep (attempt : Nat) (o : ReadyOutcome) : ReadyStepResult :=
  match o with
  | ReadyOutcome.deviceFail =>
      let a := attempt + 1
      if a > MAX_RETRY then ReadyStepResult.exitProcess 0
      else ReadyStepResult.retry a 5
  | ReadyOutcome.modbusConnFail => ReadyStepResult.retry attempt 5
  | ReadyOutcome.bodyReadFail statusCode =>
      if statusCode = 200 then ReadyStepResult.started attempt
      else ReadyStepResult.retry attempt 0
  | ReadyOutcome.bodyReadOk => ReadyStepResult.started attempt

inductive ReadyRun where
  | running (attempt : Nat)
  | exited0
  | begun
deriving DecidableEq, Repr

/-- Readiness loop over a finite list of iteration outcomes: stops at the
first process exit or pipeline start, else keeps looping with the updated
`attempt` counter. -/
def readyRun (attempt : Nat) : List ReadyOutcome → ReadyRun
  | [] => ReadyRun.running attempt
  | o :: rest =>
      match readyStep attempt o with
      | ReadyStepResult.exitProcess _ => ReadyRun.exited0
      | ReadyStepResult.started _ => ReadyRun.begun
      | ReadyStepResult.retry a _ => readyRun a rest

/-! ## Sample states used by individual theorems -/

/-- Sample light state with green solid-on only (used by the C5 witness). -/
def tlSample : TLState :=
  ⟨⟨false, true, 'G', 5⟩, ⟨false, false, 'Y', 6⟩, ⟨false, false, 'R', 7⟩⟩

/-- Sample light state with the yellow flashing flag set (used by the C8
counterexample). -/
def tlFlashSample : TLState :=
  ⟨⟨false, false, 'G', 5⟩, ⟨true, false, 'Y', 6⟩, ⟨false, false, 'R', 7⟩⟩

/-! ## Theorems for the claims -/

/-- Claim C1 (evaluation of the code at the failing inputs): the resolved
pump duration mixes units.  A valid `PUMP_TIMEOUT` of exactly 5 minutes
(parsed value 5*60*10^9 ns) is stored into `gpioConfig.PumpTimer` as the
`time.Duration` 300, i.e. 300 NANOSECONDS — far below the documented
5-minute floor — because `int64(pump.Seconds())` is a second count later
reinterpreted as nanoseconds.  Conversely an unparsable `PUMP_TIMEOUT`
assigns `int64(5*time.Minute)` = 3*10^11 to the variable the sequencer
reads as SECONDS, which is not the 300-second floor default. -/
theorem pump_duration_unit_mix :
    (buildGpioConfig (some (5 * 60 * NS_PER_SEC)) none none none none).pumpTimer = 300
    ∧ (300 : Int) < 5 * 60 * NS_PER_SEC
    ∧ initPumpTimer none = 5 * 60 * NS_PER_SEC
    ∧ initPumpTimer none ≠ 5 * 60 := by
  decide

/-- Claim C2 (evaluation of the code at the failing input): in the hold
branch with the pump on, `startTs = 0`, `now = 100` and a 300-second pump
duration, the elapsed 100 s is below the duration, the log reports the
remaining 200 s, but the sleep performed is `time.Duration(pumpTimer) *
time.Second` = the FULL 300 s, not the remaining 200 s. -/
theorem hold_sleeps_full_duration :
    pumpStep true 100 0 300 = PumpAction.hold 200 300 ∧ (300 : Int) ≠ 200 := by
  decide

/-- Claim C3 (evaluation of the code at the failing input): when every
actuation succeeds except the clean pump's `Down()` (resp. the reverse
pump's `Down()`), the sub-pipeline does NOT abort: the clean pipeline
still executes `Down('Y')`, the open-valve-down and switching-valve-down
steps with no Red alarm, and the reverse pipeline still executes
`SetFlashOff('G')` and runs the clean sub-pipeline, because both `Down()`
results are discarded and the `if err != nil` that follows reads a stale
`err`. -/
theorem down_failure_does_not_abort :
    handleCleanTrace false false false false true false false false
      = [CleanStep.svUp, CleanStep.ovUp, CleanStep.cUp, CleanStep.yUp, CleanStep.cDown,
         CleanStep.yDown, CleanStep.ovDown, CleanStep.svDown]
    ∧ handleReverseTrace false true true
      = [RevStep.rUp, RevStep.flashOnG, RevStep.rDown, RevStep.flashOffG, RevStep.cleanRun] := by
  decide

/-- Claim C4 (evaluation of the code at the failing input): an iteration
of the prober whose HTTP probe fails pushes TWO statuses — `Disconnected`
and then, because the `push Connected` is not guarded by an `else`, also
`Connected` — while a successful iteration pushes exactly one `Connected`. -/
theorem failed_probe_pushes_disconnected_then_connected :
    connectedIterPushes true = [false, true]
    ∧ connectedIterPushes false = [true] := by
  decide

/-- Claim C5: `Up(color)` sets that color's solid status and clears the
other two; `Down(color)` clears that color's solid status; consequently
the at-most-one-solid predicate is preserved by every `Up` and every
`Down` (any rune, recognised or not) from any state satisfying it. -/
theorem up_down_preserve_exclusion :
    (∀ s : TLState,
        (upState 'G' s).green.status = true ∧ (upState 'G' s).yellow.status = false
          ∧ (upState 'G' s).red.status = false
          ∧ (upState 'Y' s).yellow.status = true ∧ (upState 'Y' s).green.status = false
          ∧ (upState 'Y' s).red.status = false
          ∧ (upState 'R' s).red.status = true ∧ (upState 'R' s).green.status = false
          ∧ (upState 'R' s).yellow.status = false
          ∧ (downState 'G' s).green.status = false ∧ (downState 'Y' s).yellow.status = false
          ∧ (downState 'R' s).red.status = false)
    ∧ ∀ (c : Char) (s : TLState), atMostOneSolid s = true →
        atMostOneSolid (upState c s) = true ∧ atMostOneSolid (downState c s) = true := by
  constructor
  · intro s
    simp [upState, downState]
  · intro c s h
    obtain ⟨⟨gf, gs, gc, gl⟩, ⟨yf, ys, yc, yl⟩, ⟨rf, rs, rc, rl⟩⟩ := s
    simp only [upState, downState, atMostOneSolid] at h ⊢
    split_ifs <;> cases gs <;> cases ys <;> cases rs <;> simp_all

/-- Witness for C5 at a concrete state (green solid) and color `'Y'`. -/
theorem up_down_preserve_exclusion_witness :
    atMostOneSolid tlSample = true
    ∧ (atMostOneSolid (upState 'Y' tlSample) = true
       ∧ atMostOneSolid (downState 'Y' tlSample) = true) :=
  ⟨by decide, up_down_preserve_exclusion.2 'Y' tlSample (by decide)⟩

/-- Helper for C6: once `checkLoop = 1`, further Disconnected values make
no indicator calls and leave the counter at 1. -/
theorem connRun_stay_flashing (k : Nat) :
    connRun 1 (List.replicate k false) = (1, []) := by
  induction k with
  | zero => rfl
  | succ n ih => simp [List.replicate_succ, connRun, connStep, ih]

/-- Helper for C6: from `checkLoop = 1`, Disconnected values followed by a
single Connected value produce exactly one `SetFlashOff('R')` call. -/
theorem connRun_then_conn (k : Nat) :
    connRun 1 (List.replicate k false ++ [true]) = (0, [WCall.flashOffR]) := by
  induction k with
  | zero => rfl
  | succ n ih => simp [List.replicate_succ, connRun, connStep, ih]

/-- Claim C6: from `checkLoop = 0`, consuming N ≥ 1 consecutive
Disconnected values produces exactly one `SetFlashOn('R')` call (not N),
and consuming the next Connected value adds exactly one `SetFlashOff('R')`
call. -/
theorem connection_debounce (n : Nat) (h : 1 ≤ n) :
    connRun 0 (List.replicate n false) = (1, [WCall.flashOnR])
    ∧ connRun 0 (List.replicate n false ++ [true])
        = (0, [WCall.flashOnR, WCall.flashOffR]) := by
  obtain ⟨m, rfl⟩ : ∃ m, n = m + 1 := ⟨n - 1, by omega⟩
  constructor
  · simp [List.replicate_succ, connRun, connStep, connRun_stay_flashing]
  · simp [List.replicate_succ, connRun, connStep, connRun_then_conn]

/-- Witness for C6 at N = 3. -/
theorem connection_debounce_witness :
    1 ≤ 3
    ∧ (connRun 0 (List.replicate 3 false) = (1, [WCall.flashOnR])
       ∧ connRun 0 (List.replicate 3 false ++ [true])
           = (0, [WCall.flashOnR, WCall.flashOffR])) :=
  ⟨by decide, connection_debounce 3 (by decide)⟩

/-- Claim C7 (evaluation of the code at the failing input): with the flag
observed set at two consecutive guard checks and every actuation
succeeding, the flash-loop trace is up, 3-second wait, down, up, 3-second
wait, down — the line is re-actuated high IMMEDIATELY after being actuated
low, with no second 3-second wait between `Down` and the next guard
check.  The trace also ends as soon as a guard check observes the flag
cleared (the third entry), so the stop-latency half of the claim holds. -/
theorem flashing_has_no_off_interval :
    flashingLoop [(true, false, false), (true, false, false), (false, false, false)]
      = [FlashEvent.lineUp, FlashEvent.wait3s, FlashEvent.lineDown,
         FlashEvent.lineUp, FlashEvent.wait3s, FlashEvent.lineDown] := by
  decide

/-- Counterexample for C8: a state where yellow's flashing flag is set is
changed by `SetFlashOn('G')` — the yellow flashing flag is cleared, not
left unchanged as the claim states. -/
theorem setFlashOn_clears_other_flashing_cex :
    tlFlashSample.yellow.flashing = true
    ∧ (setFlashOn 'G' tlFlashSample).yellow.flashing = false := by
  decide

/-- Claim C8 (amended): `SetFlashOn(color)` sets that color's flashing
flag true and synchronously CLEARS the other two colors' flashing flags —
flashing exclusivity is enforced by the controller — while leaving every
solid-status flag unchanged. -/
theorem setFlashOn_enforces_flashing_exclusivity :
    ∀ s : TLState,
      ((setFlashOn 'G' s).green.flashing = true
        ∧ (setFlashOn 'G' s).yellow.flashing = false
        ∧ (setFlashOn 'G' s).red.flashing = false
        ∧ (setFlashOn 'G' s).green.status = s.green.status
        ∧ (setFlashOn 'G' s).yellow.status = s.yellow.status
        ∧ (setFlashOn 'G' s).red.status = s.red.status)
      ∧ ((setFlashOn 'Y' s).yellow.flashing = true
        ∧ (setFlashOn 'Y' s).green.flashing = false
        ∧ (setFlashOn 'Y' s).red.flashing = false
        ∧ (setFlashOn 'Y' s).green.status = s.green.status
        ∧ (setFlashOn 'Y' s).yellow.status = s.yellow.status
        ∧ (setFlashOn 'Y' s).red.status = s.red.status)
      ∧ ((setFlashOn 'R' s).red.flashing = true
        ∧ (setFlashOn 'R' s).green.flashing = false
        ∧ (setFlashOn 'R' s).yellow.flashing = false
        ∧ (setFlashOn 'R' s).green.status = s.green.status
        ∧ (setFlashOn 'R' s).yellow.status = s.yellow.status
        ∧ (setFlashOn 'R' s).red.status = s.red.status) := by
  intro s
  simp [setFlashOn]

/-- Counterexample for C9: ten consecutive failures of the companion
endpoint precondition (the Modbus probe) leave the readiness loop running
with the attempt counter still at 0 — the MAX_RETRY budget does not apply
to this precondition, contradicting the claim that both preconditions are
re-checked for up to MAX_RETRY attempts before the process terminates. -/
theorem readiness_budget_not_applied_to_endpoint_cex :
    readyRun 0 (List.replicate 10 ReadyOutcome.modbusConnFail) = ReadyRun.running 0 := by
  decide

/-- Helper for C9: a run containing no device-registry failure never exits
the process. -/
theorem readyRun_no_deviceFail (outs : List ReadyOutcome) :
    ∀ a : Nat, ReadyOutcome.deviceFail ∉ outs → readyRun a outs ≠ ReadyRun.exited0 := by
  induction outs with
  | nil =>
      intro a h
      simp [readyRun]
  | cons o rest ih =>
      intro a h
      simp only [List.mem_cons, not_or] at h
      obtain ⟨h1, h2⟩ := h
      cases o with
      | deviceFail => exact absurd rfl h1
      | modbusConnFail => simpa [readyRun, readyStep] using ih a h2
      | bodyReadFail c =>
          by_cases hc : c = 200
          · simp [readyRun, readyStep, hc]
          · simpa [readyRun, readyStep, hc] using ih a h2
      | bodyReadOk => simp [readyRun, readyStep]

/-- Claim C9 (amended): only the device-registry precondition carries the
retry budget: a readiness iteration exits the process (with code 0) if and
only if the device lookup fails with the incremented attempt counter
exceeding MAX_RETRY (5); an endpoint connection failure retries after 5 s
without touching the counter, and a run with no device-lookup failure
never terminates the process. -/
theorem readiness_exit_only_on_device_budget :
    ∀ a : Nat,
      (∀ o : ReadyOutcome,
        readyStep a o = ReadyStepResult.exitProcess 0
          ↔ o = ReadyOutcome.deviceFail ∧ a + 1 > MAX_RETRY)
      ∧ readyStep a ReadyOutcome.modbusConnFail = ReadyStepResult.retry a 5
      ∧ ∀ outs : List ReadyOutcome,
          ReadyOutcome.deviceFail ∉ outs → readyRun a outs ≠ ReadyRun.exited0 := by
  intro a
  refine ⟨?_, rfl, fun outs h => readyRun_no_deviceFail outs a h⟩
  intro o
  cases o with
  | deviceFail =>
      by_cases hb : a + 1 > MAX_RETRY
      · simp [readyStep, hb]
      · simp [readyStep, hb]
  | modbusConnFail => simp [readyStep]
  | bodyReadFail c =>
      by_cases hc : c = 200 <;> simp [readyStep, hc]
  | bodyReadOk => simp [readyStep]

/-- Witness for C9 at `attempt = 0` and a concrete outcome list without a
device-lookup failure. -/
theorem readiness_exit_only_on_device_budget_witness :
    (ReadyOutcome.deviceFail ∉ [ReadyOutcome.modbusConnFail, ReadyOutcome.bodyReadFail 500])
    ∧ readyRun 0 [ReadyOutcome.modbusConnFail, ReadyOutcome.bodyReadFail 500]
        ≠ ReadyRun.exited0 :=
  ⟨by decide, (readiness_exit_only_on_device_budget 0).2.2
    [ReadyOutcome.modbusConnFail, ReadyOutcome.bodyReadFail 500] (by decide)⟩

/-- Counterexample for C10: a call with an unrecognised color — for
instance `Up('X')` — only logs and dereferences no pointer, returning with
the package state untouched, so it is not the case that EVERY input to
these operations dereferences a nil pointer. -/
theorem unknown_color_no_nil_deref_cex :
    upOpt 'X' nilLights = some nilLights := by
  decide

/-- Claim C10 (amended): the package-level light pointers are never
allocated, so from the initial all-nil state every indicator operation
invoked with a recognised input — colors `'G'`, `'Y'`, `'R'`, or a
`HandleLight` line in {5, 6, 7} — dereferences a nil pointer (the `none`
branch of the total embedding); the dereference is unguarded; calls with
unrecognised inputs only log. -/
theorem nil_lights_deref_on_recognised_inputs :
    upOpt 'G' nilLights = none ∧ upOpt 'Y' nilLights = none ∧ upOpt 'R' nilLights = none
    ∧ downOpt 'G' nilLights = none ∧ downOpt 'Y' nilLights = none
    ∧ downOpt 'R' nilLights = none
    ∧ setFlashOnOpt 'G' nilLights = none ∧ setFlashOnOpt 'Y' nilLights = none
    ∧ setFlashOnOpt 'R' nilLights = none
    ∧ setFlashOffOpt 'G' nilLights = none ∧ setFlashOffOpt 'Y' nilLights = none
    ∧ setFlashOffOpt 'R' nilLights = none
    ∧ flashingGuardOpt 'G' nilLights = none ∧ flashingGuardOpt 'Y' nilLights = none
    ∧ flashingGuardOpt 'R' nilLights = none
    ∧ handleLightOpt 5 nilLights = none ∧ handleLightOpt 6 nilLights = none
    ∧ handleLightOpt 7 nilLights = none := by
  decide

end DeviceGpiod
